import Mathlib

set_option maxRecDepth 8000

/-! Formal model of the EAIOS reactive decision pipeline core: the event bus
    (backend/app/core/event_bus.py), the S8 decision report pipeline with its
    reactive revision controller (backend/app/scenarios/s8_decision.py), and
    the meeting-assistant conflict detector
    (backend/app/core/meeting_assistant.py).  Python dictionaries holding
    model output are embedded as a small JSON value type, stateful methods as
    explicit state-passing functions, and raised exceptions as `Except`
    results. -/

/-- JSON values, embedding the Python objects returned by `json.loads` for
the fragment of JSON exchanged with the language model (null, booleans,
integers, strings, arrays, objects). -/
inductive Json where
  | null : Json
  | bool (b : Bool) : Json
  | num (n : Int) : Json
  | str (s : String) : Json
  | arr (elems : List Json) : Json
  | obj (fields : List (String × Json)) : Json

/-- Lookup of a key in an association list of object fields, mirroring a
Python dict read (first binding wins; keys are unique by construction). -/
def alLookup (fs : List (String × Json)) (k : String) : Option Json :=
  (fs.find? (fun p => p.1 == k)).map (fun p => p.2)

/-- Assignment `d[k] = v` on a Python dict: replaces the value in place when
the key exists (insertion order preserved), otherwise appends the binding. -/
def alInsert (fs : List (String × Json)) (k : String) (v : Json) : List (String × Json) :=
  if (fs.find? (fun p => p.1 == k)).isSome then
    fs.map (fun p => if p.1 == k then (k, v) else p)
  else
    fs ++ [(k, v)]

/-- Skip JSON whitespace. -/
def jsonSkipWs : List Char → List Char
  | c :: cs => if c = ' ' ∨ c = '\n' ∨ c = '\t' ∨ c = '\r' then jsonSkipWs cs else c :: cs
  | [] => []

/-- Parse the body of a JSON string literal after the opening quote, with a
minimal escape table. -/
def parseStringBody : Nat → List Char → List Char → Option (String × List Char)
  | 0, _, _ => none
  | _ + 1, _, [] => none
  | fuel + 1, acc, c :: cs =>
    if c = Char.ofNat 34 then some (acc.reverse.asString, cs)
    else if c = Char.ofNat 92 then
      match cs with
      | [] => none
      | e :: cs2 =>
        let d := if e = 'n' then Char.ofNat 10
                 else if e = 't' then Char.ofNat 9
                 else if e = 'r' then Char.ofNat 13
                 else e
        parseStringBody fuel (d :: acc) cs2
    else parseStringBody fuel (c :: acc) cs

/-- Parse a nonempty run of decimal digits into a natural number. -/
def parseDigits (cs : List Char) : Option (Nat × List Char) :=
  let ds := cs.takeWhile Char.isDigit
  if ds.isEmpty then none
  else some (ds.foldl (fun acc c => acc * 10 + (c.toNat - 48)) 0, cs.drop ds.length)

mutual

/-- Recursive-descent JSON value parser (fuel-indexed). -/
def parseValue : Nat → List Char → Option (Json × List Char)
  | 0, _ => none
  | fuel + 1, cs =>
    match jsonSkipWs cs with
    | [] => none
    | c :: rest =>
      if c = Char.ofNat 34 then
        (parseStringBody (fuel + 1) [] rest).map (fun p => (Json.str p.1, p.2))
      else if c = Char.ofNat 123 then
        (parseObjFields fuel rest).map (fun p =>
          (Json.obj (p.1.foldl (fun acc kv => alInsert acc kv.1 kv.2) []), p.2))
      else if c = '[' then
        (parseArrElems fuel rest).map (fun p => (Json.arr p.1, p.2))
      else if c = 't' then
        match rest with
        | 'r' :: 'u' :: 'e' :: r2 => some (Json.bool true, r2)
        | _ => none
      else if c = 'f' then
        match rest with
        | 'a' :: 'l' :: 's' :: 'e' :: r2 => some (Json.bool false, r2)
        | _ => none
      else if c = 'n' then
        match rest with
        | 'u' :: 'l' :: 'l' :: r2 => some (Json.null, r2)
        | _ => none
      else if c = '-' then
        (parseDigits rest).map (fun p => (Json.num (-(p.1 : Int)), p.2))
      else if c.isDigit then
        (parseDigits (c :: rest)).map (fun p => (Json.num (p.1 : Int), p.2))
      else none

/-- Parse the elements of a JSON array after the opening bracket. -/
def parseArrElems : Nat → List Char → Option (List Json × List Char)
  | 0, _ => none
  | fuel + 1, cs =>
    match jsonSkipWs cs with
    | ']' :: rest => some ([], rest)
    | cs2 => parseArrTail fuel cs2

/-- Parse one array element followed by a comma-separated tail. -/
def parseArrTail : Nat → List Char → Option (List Json × List Char)
  | 0, _ => none
  | fuel + 1, cs =>
    match parseValue fuel cs with
    | none => none
    | some (v, rest) =>
      match jsonSkipWs rest with
      | ',' :: rest2 =>
        match parseArrTail fuel rest2 with
        | some (vs, r3) => some (v :: vs, r3)
        | none => none
      | ']' :: rest2 => some ([v], rest2)
      | _ => none

/-- Parse the fields of a JSON object after the opening brace. -/
def parseObjFields : Nat → List Char → Option (List (String × Json) × List Char)
  | 0, _ => none
  | fuel + 1, cs =>
    match jsonSkipWs cs with
    | [] => none
    | c :: rest =>
      if c = Char.ofNat 125 then some ([], rest)
      else parseObjTail fuel (c :: rest)

/-- Parse one object field followed by a comma-separated tail. -/
def parseObjTail : Nat → List Char → Option (List (String × Json) × List Char)
  | 0, _ => none
  | fuel + 1, cs =>
    match jsonSkipWs cs with
    | [] => none
    | c :: rest =>
      if c = Char.ofNat 34 then
        match parseStringBody fuel [] rest with
        | none => none
        | some (key, r2) =>
          match jsonSkipWs r2 with
          | ':' :: r3 =>
            match parseValue fuel r3 with
            | none => none
            | some (v, r4) =>
              match jsonSkipWs r4 with
              | ',' :: r5 =>
                match parseObjTail fuel r5 with
                | some (fs, r6) => some ((key, v) :: fs, r6)
                | none => none
              | c2 :: r5 => if c2 = Char.ofNat 125 then some ([(key, v)], r5) else none
              | [] => none
          | _ => none
      else none

end

/-- Embedding of `json.loads`: parse a complete JSON document, failing on
residual non-whitespace input, exactly as the Python call raises
`JSONDecodeError` on malformed or trailing text. -/
def json_loads (s : String) : Except String Json :=
  match parseValue (2 * s.length + 2) s.toList with
  | some (j, rest) => if (jsonSkipWs rest).isEmpty then .ok j else .error "JSONDecodeError"
  | none => .error "JSONDecodeError"

/-- Python truthiness test `not x` on a JSON value: None, False, 0, empty
string, empty list and empty dict are falsy. -/
def jsonFalsy : Json → Bool
  | .null => true
  | .bool b => !b
  | .num n => n == 0
  | .str s => s == ""
  | .arr xs => xs.isEmpty
  | .obj fs => fs.isEmpty

/-- Python truthiness test `if x`. -/
def jsonTruthy (j : Json) : Bool := !(jsonFalsy j)

/-- Python equality `j == s` between an arbitrary value and a string: true
exactly when `j` is that string. -/
def jsonEqStr (j : Json) (s : String) : Bool :=
  match j with
  | .str t => t == s
  | _ => false

/-- Python `d.get(k, default)`: defaulted dict read, raising
`AttributeError` when the receiver is not a dict. -/
def pyDictGet (j : Json) (k : String) (dflt : Json) : Except String Json :=
  match j with
  | .obj fs => .ok ((alLookup fs k).getD dflt)
  | _ => .error "AttributeError"

/-- Python subscript `d[k]` with a string key: `KeyError` when the key is
missing, `TypeError` when the receiver is not a dict. -/
def pyGetItem (j : Json) (k : String) : Except String Json :=
  match j with
  | .obj fs =>
    match alLookup fs k with
    | some v => .ok v
    | none => .error "KeyError"
  | _ => .error "TypeError"

/-- Python iteration `for x in j`: lists yield elements, strings yield
one-character strings, dicts yield their keys, everything else raises
`TypeError`. -/
def pyIter : Json → Except String (List Json)
  | .arr xs => .ok xs
  | .str s => .ok (s.data.map (fun c => Json.str (String.mk [c])))
  | .obj fs => .ok (fs.map (fun p => Json.str p.1))
  | _ => .error "TypeError"

/-- Python `len(j)`: defined for strings, lists and dicts, raising
`TypeError` otherwise. -/
def pyLen : Json → Except String Nat
  | .str s => .ok s.length
  | .arr xs => .ok xs.length
  | .obj fs => .ok fs.length
  | _ => .error "TypeError"

/-- Python `str.strip()`: drop leading and trailing whitespace. -/
def pyStrip (s : String) : String :=
  ((s.data.dropWhile Char.isWhitespace).reverse.dropWhile Char.isWhitespace).reverse.asString

/-- Splitting worker over character lists (fuel-indexed; the separator is
nonempty at every call site, so each step consumes input). -/
def splitOnChars (sep : List Char) : Nat → List Char → List Char → List (List Char)
  | 0, acc, rest => [acc.reverse ++ rest]
  | _ + 1, acc, [] => [acc.reverse]
  | fuel + 1, acc, c :: cs =>
    if sep.isPrefixOf (c :: cs) then
      acc.reverse :: splitOnChars sep fuel [] ((c :: cs).drop sep.length)
    else splitOnChars sep fuel (c :: acc) cs

/-- Python `s.split(sep)` for a nonempty separator: the maximal list of
fragments between non-overlapping left-to-right separator occurrences. -/
def pySplit (s sep : String) : List String :=
  (splitOnChars sep.data (s.data.length + 1) [] s.data).map List.asString

/-- Substring containment, mirroring the Python `sub in s` test used before
fence stripping. -/
def pyContains (s sub : String) : Bool :=
  2 ≤ (pySplit s sub).length

/-- Scan for the slice from the first opening brace to the last closing
brace, the fallback branch of the permissive extraction (returns the input
unchanged when no such pair exists). -/
def braceSlice (content : String) : String :=
  let cs := content.toList
  match cs.findIdx? (fun c => c = Char.ofNat 123) with
  | none => content
  | some i =>
    match cs.reverse.findIdx? (fun c => c = Char.ofNat 125) with
    | none => content
    | some k =>
      let j := cs.length - 1 - k
      if i < j then ((cs.drop i).take (j - i + 1)).asString else content

/-- Permissive extraction of a JSON document from model output: strip a
```json fence, else strip a bare ``` fence, else scan for the outermost
brace pair. Shared verbatim by the summary, risk, recommendation and
conflict-check parsing code. -/
def extract_json_content (content : String) : String :=
  if pyContains content "```json" then
    pyStrip ((pySplit ((pySplit content "```json").getD 1 "") "```").getD 0 "")
  else if pyContains content "```" then
    pyStrip ((pySplit ((pySplit content "```").getD 1 "") "```").getD 0 "")
  else
    braceSlice content

/-! ## EventBus (backend/app/core/event_bus.py) -/

/-- An event object. The Python constructor stamps `timestamp` with
`datetime.now().isoformat()` and `id` with
`"EVT_" + datetime.now().strftime("%Y%m%d%H%M%S")`; we carry the two
renderings of the creation time as strings supplied by the clock, `tsec`
being the second-granularity `%Y%m%d%H%M%S` form used for the id. -/
structure Event where
  name : String
  data : Json
  source : String
  tsec : String
  tiso : String

/-- The event id `"EVT_" + strftime("%Y%m%d%H%M%S")`. -/
def Event.id (e : Event) : String := "EVT_" ++ e.tsec

/-- The event bus: a topic-to-handler-list map (Python dict, embedded as an
insertion-ordered association list with unique keys), a bounded event
history, and the capacity bound. Handlers are of an abstract type `H`
compared by reference, as in Python. -/
structure EventBus (H : Type) where
  subscribers : List (String × List H)
  eventHistory : List Event
  maxHistory : Nat

/-- A fresh bus as built by `EventBus.__init__`: no subscribers, empty
history, capacity 100. -/
def EventBus.new {H : Type} : EventBus H :=
  { subscribers := [], eventHistory := [], maxHistory := 100 }

/-- Lookup of a topic in the subscriber map. -/
def busLookup {H : Type} (subs : List (String × List H)) (name : String) : Option (List H) :=
  (subs.find? (fun p => p.1 == name)).map (fun p => p.2)

/-- Replace the handler list bound to a topic in place (Python mutates the
list object held in the dict; the binding itself is unchanged). -/
def busSet {H : Type} (subs : List (String × List H)) (name : String) (l : List H) :
    List (String × List H) :=
  subs.map (fun p => if p.1 == name then (name, l) else p)

/-- `EventBus.subscribe`: create an empty list for an unseen topic, then
append the callback (no uniqueness constraint). -/
def EventBus.subscribe {H : Type} (bus : EventBus H) (name : String) (cb : H) : EventBus H :=
  match busLookup bus.subscribers name with
  | none => { bus with subscribers := bus.subscribers ++ [(name, [cb])] }
  | some l => { bus with subscribers := busSet bus.subscribers name (l ++ [cb]) }

/-- Python `list.remove(x)`: delete the first occurrence, raising
`ValueError` when the element is absent. -/
def pyRemove {H : Type} [DecidableEq H] : List H → H → Except String (List H)
  | [], _ => .error "ValueError"
  | y :: ys, x => if y = x then .ok ys else (pyRemove ys x).map (fun l => y :: l)

/-- `EventBus.unsubscribe`: a no-op for an unknown topic, otherwise
`self.subscribers[event_name].remove(callback)`. -/
def EventBus.unsubscribe {H : Type} [DecidableEq H] (bus : EventBus H) (name : String) (cb : H) :
    Except String (EventBus H) :=
  match busLookup bus.subscribers name with
  | none => .ok bus
  | some l =>
    (pyRemove l cb).map (fun l2 => { bus with subscribers := busSet bus.subscribers name l2 })

/-- The history update inside `emit`: append the event, then pop the oldest
entry when the capacity is exceeded. -/
def pushCapped (cap : Nat) (h : List Event) (e : Event) : List Event :=
  if cap < (h ++ [e]).length then (h ++ [e]).drop 1 else h ++ [e]

/-- `EventBus.emit`: build the event, record it in the bounded history, then
dispatch the payload to every handler registered for the topic and gather
the outcomes with `asyncio.gather(*tasks, return_exceptions=True)`. The
dispatch environment `run` gives each handler execution outcome; a raising
handler yields `.error`, which gather records as a value instead of
propagating, so `emit` always returns the event id together with one
outcome per registered handler. -/
def EventBus.emit {H : Type} (bus : EventBus H) (run : H → Except String Unit)
    (name : String) (data : Json) (source : String) (tsec tiso : String) :
    EventBus H × List (Except String Unit) × String :=
  let event : Event := { name := name, data := data, source := source, tsec := tsec, tiso := tiso }
  let hist := pushCapped bus.maxHistory bus.eventHistory event
  let handlers := (busLookup bus.subscribers name).getD []
  let results := handlers.map run
  ({ bus with eventHistory := hist }, results, event.id)

/-! ## S8 decision agent (backend/app/scenarios/s8_decision.py) -/

/-- A memory record as returned by the MemoryManager collaborator: stable
id, content, and the `metadata["source"]` string the prompts read. -/
structure Memory where
  id : String
  content : String
  source : String
deriving Repr, DecidableEq

/-- A completion-service response dict: it may carry an `error` key and a
`content` key (`none` models an absent or None entry). -/
structure LLMResponse where
  error : Option String := none
  content : Option String := none
deriving Repr, DecidableEq

/-- The report dict built by `generate_report`; `confirm_actions` later adds
the `tasks` and `sync_log` keys and flips `status`, so those two are
optional. -/
structure Report where
  version : String
  generated_at : String
  summary : Json
  risks : Json
  recommendations : Json
  status : String
  tasks : Option Json
  sync_log : Option String

/-- The mutable agent state shared across calls: the singleton current
report, the pipeline version counter `self.report_version`, and the
class-level re-entrancy flag `_is_processing_update`. -/
structure S8State where
  currentReport : Option Report
  reportVersion : String
  isProcessingUpdate : Bool

/-- The fresh agent state established by `__init__`. -/
def S8State.init : S8State :=
  { currentReport := none, reportVersion := "v1.0", isProcessingUpdate := false }

/-- A record of one `event_bus.emit` call (topic and source; payloads are
not inspected by any verified property). -/
structure EmitCall where
  name : String
  source : String
deriving Repr, DecidableEq

/-- The collaborator environment of one handler or pipeline run: results of
the memory searches, the analytics tool, the full-memory fetch (each of
which can raise, modeled as `.error`), the completion responses consumed by
the five model calls, and the clock rendering for `generated_at`. -/
structure S8Env where
  analytics : Except String Json
  searchSummary : Except String (List Memory)
  searchRisk : Except String (List Memory)
  searchRec : Except String (List Memory)
  summaryResp : LLMResponse
  riskResp : LLMResponse
  recResp : LLMResponse
  shouldUpdateResp : LLMResponse
  comparisonResp : LLMResponse
  getAllMemories : Except String (List Memory)
  nowIso : String

/-- The degraded summary object returned on every failure branch of node 1. -/
def degradedSummary (msg : String) : Json :=
  Json.obj [("summary_text", Json.str msg), ("key_metrics", Json.arr []),
            ("evidence_ids", Json.arr [])]

/-- The degraded risk object `\x7b"risks": []\x7d` of node 2. -/
def risksEmptyJson : Json := Json.obj [("risks", Json.arr [])]

/-- The degraded action object `\x7b"actions": []\x7d` of node 3. -/
def actionsEmptyJson : Json := Json.obj [("actions", Json.arr [])]

/-- The `node_status` progress emit of a pipeline node. -/
def nodeStatusEmit : EmitCall := { name := "node_status", source := "s8_decision_agent" }

/-- One backfill step of the loop
`if not risk.get("evidence_ids"): risk["evidence_ids"] = [m.id for m in memories[:2]]`
shared by nodes 2 and 3; iterating over a non-dict entry raises
`AttributeError` at the `.get` call. -/
def backfillEntry (memories : List Memory) (j : Json) : Except String Json :=
  match j with
  | .obj fs =>
    if jsonFalsy ((alLookup fs "evidence_ids").getD Json.null) then
      .ok (Json.obj (alInsert fs "evidence_ids"
        (Json.arr ((memories.take 2).map (fun m => Json.str m.id)))))
    else .ok (Json.obj fs)
  | _ => .error "AttributeError"

/-- The whole backfill loop over the container read from the parsed result.
Python iterates the container: a list visits its entries, an empty string or
empty dict runs zero iterations and leaves the container as it was, any
other iterable immediately raises at `risk.get`, and non-iterables raise
`TypeError`. -/
def backfillAll (memories : List Memory) : Json → Except String Json
  | .arr xs => (xs.mapM (backfillEntry memories)).map Json.arr
  | .str s => if s == "" then .ok (Json.str s) else .error "AttributeError"
  | .obj fs => if fs.isEmpty then .ok (Json.obj fs) else .error "AttributeError"
  | _ => .error "TypeError"

/-- Node 1, `_node_summary`: emit progress, query analytics and memory
(either collaborator may raise, propagating), then the guarded
completion-and-parse sequence whose every failure degrades to a placeholder
summary. On success the node overwrites `evidence_ids` with all recalled
ids, stamps `data_source`, and emits completion; the trailing
`len(result.get("key_metrics", []))` raises (and is caught) when that entry
has no length. -/
def node_summary (env : S8Env) : List EmitCall × Except String Json :=
  let emits := [nodeStatusEmit]
  match env.analytics with
  | .error e => (emits, .error e)
  | .ok _metricsData =>
    match env.searchSummary with
    | .error e => (emits, .error e)
    | .ok memories =>
      let resp := env.summaryResp
      if resp.error.isSome then (emits, .ok (degradedSummary "LLM服务暂时不可用"))
      else
        let content := pyStrip (resp.content.getD "")
        if content == "" then (emits, .ok (degradedSummary "LLM返回空内容"))
        else
          let content := extract_json_content content
          if content == "" then (emits, .ok (degradedSummary "JSON提取失败"))
          else
            match json_loads content with
            | .error _ => (emits, .ok (degradedSummary "经营数据加载失败"))
            | .ok result =>
              match result with
              | .obj fs =>
                let fs := alInsert fs "evidence_ids"
                  (Json.arr (memories.map (fun m => Json.str m.id)))
                let fs := alInsert fs "data_source" (Json.str "analytics.json")
                match pyLen ((alLookup fs "key_metrics").getD (Json.arr [])) with
                | .error _ => (emits, .ok (degradedSummary "经营数据加载失败"))
                | .ok _ => (emits ++ [nodeStatusEmit], .ok (Json.obj fs))
              | _ => (emits, .ok (degradedSummary "经营数据加载失败"))

/-- Node 2, `_node_risk_detection`: emit progress, recall memories (the
search may raise, propagating — it runs before the try block), then the
guarded completion-and-parse sequence degrading to `\x7b"risks": []\x7d` on
any error, empty content, extraction failure, parse failure, or exception
raised while backfilling; on success the `risks` entries are backfilled in
place and completion is emitted. -/
def node_risk_detection (env : S8Env) (_summary : Json) : List EmitCall × Except String Json :=
  let emits := [nodeStatusEmit]
  match env.searchRisk with
  | .error e => (emits, .error e)
  | .ok memories =>
    let resp := env.riskResp
    if resp.error.isSome then (emits, .ok risksEmptyJson)
    else
      let content := pyStrip (resp.content.getD "")
      if content == "" then (emits, .ok risksEmptyJson)
      else
        let content := extract_json_content content
        if content == "" then (emits, .ok risksEmptyJson)
        else
          match json_loads content with
          | .error _ => (emits, .ok risksEmptyJson)
          | .ok result =>
            match result with
            | .obj fs =>
              let container := (alLookup fs "risks").getD (Json.arr [])
              match backfillAll memories container with
              | .error _ => (emits, .ok risksEmptyJson)
              | .ok container2 =>
                let result2 :=
                  if (alLookup fs "risks").isSome then Json.obj (alInsert fs "risks" container2)
                  else Json.obj fs
                match pyLen (if (alLookup fs "risks").isSome then container2 else Json.arr []) with
                | .error _ => (emits, .ok risksEmptyJson)
                | .ok _ => (emits ++ [nodeStatusEmit], .ok result2)
            | _ => (emits, .ok risksEmptyJson)

/-- Node 3, `_node_recommendations`: structurally identical to node 2 with
the `actions` container and degraded value `\x7b"actions": []\x7d`. -/
def node_recommendations (env : S8Env) (_summary _risks : Json) :
    List EmitCall × Except String Json :=
  let emits := [nodeStatusEmit]
  match env.searchRec with
  | .error e => (emits, .error e)
  | .ok memories =>
    let resp := env.recResp
    if resp.error.isSome then (emits, .ok actionsEmptyJson)
    else
      let content := pyStrip (resp.content.getD "")
      if content == "" then (emits, .ok actionsEmptyJson)
      else
        let content := extract_json_content content
        if content == "" then (emits, .ok actionsEmptyJson)
        else
          match json_loads content with
          | .error _ => (emits, .ok actionsEmptyJson)
          | .ok result =>
            match result with
            | .obj fs =>
              let container := (alLookup fs "actions").getD (Json.arr [])
              match backfillAll memories container with
              | .error _ => (emits, .ok actionsEmptyJson)
              | .ok container2 =>
                let result2 :=
                  if (alLookup fs "actions").isSome then Json.obj (alInsert fs "actions" container2)
                  else Json.obj fs
                match pyLen (if (alLookup fs "actions").isSome then container2 else Json.arr []) with
                | .error _ => (emits, .ok actionsEmptyJson)
                | .ok _ => (emits ++ [nodeStatusEmit], .ok result2)
            | _ => (emits, .ok actionsEmptyJson)

/-- `generate_report`: run nodes 1 to 3 in order (a raising node propagates
with the emits made so far), build the report dict stamped with the current
`self.report_version` and status `pending_confirmation`, store it as the
singleton current report, and emit `report_generated`. -/
def generate_report (st : S8State) (env : S8Env) :
    List EmitCall × Except String (S8State × Report) :=
  match node_summary env with
  | (e1, .error e) => (e1, .error e)
  | (e1, .ok summary) =>
    match node_risk_detection env summary with
    | (e2, .error e) => (e1 ++ e2, .error e)
    | (e2, .ok risks) =>
      match node_recommendations env summary risks with
      | (e3, .error e) => (e1 ++ e2 ++ e3, .error e)
      | (e3, .ok recommendations) =>
        let report : Report :=
          { version := st.reportVersion, generated_at := env.nowIso,
            summary := summary, risks := risks, recommendations := recommendations,
            status := "pending_confirmation", tasks := none, sync_log := none }
        (e1 ++ e2 ++ e3 ++ [{ name := "report_generated", source := "s8_decision_agent" }],
         .ok ({ st with currentReport := some report }, report))

/-- One CEO-approved action passed to `confirm_actions`: `title`, `owner`
and `deadline` are read with subscripts (required), the rest with defaulted
`.get` calls. -/
structure ApprovedAction where
  title : String
  description : String := ""
  owner : String
  deadline : String
  evidence_ids : List String := []
  expected_impact : String := ""
deriving Repr, DecidableEq

/-- A task dict minted by `confirm_actions`. -/
structure PyTask where
  task_id : String
  title : String
  description : String
  owner : String
  deadline : String
  status : String
  created_at : String
  created_by : String
  evidence_ids : List String
  expected_impact : String
deriving Repr, DecidableEq

/-- `confirm_actions` (node 4): mint one pending task per approved action,
build the sync log line, flip the current report (when one exists) to
`confirmed` with the frozen tasks and log, emit `action_confirmed`, and
return success. `nowDate`/`nowTime`/`nowIso` are the clock renderings used
for the task id and timestamps. -/
def confirm_actions (st : S8State) (actions : List ApprovedAction) (sync_to_board : Bool)
    (nowDate nowTime nowIso : String) : S8State × List EmitCall × (List PyTask × String) :=
  let tasks := actions.map (fun a =>
    ({ task_id := "TASK_" ++ nowDate ++ "_" ++ nowTime, title := a.title,
       description := a.description, owner := a.owner, deadline := a.deadline,
       status := "待开始", created_at := nowIso, created_by := "CEO",
       evidence_ids := a.evidence_ids, expected_impact := a.expected_impact } : PyTask))
  let sync_log :=
    if sync_to_board then "已生成 " ++ toString tasks.length ++ " 个任务，模拟同步到飞书看板"
    else "已生成 " ++ toString tasks.length ++ " 个任务，未同步到看板"
  let st2 :=
    match st.currentReport with
    | some r =>
      let r2 : Report :=
        { r with status := "confirmed",
                 tasks := some (Json.arr (tasks.map (fun t => Json.str t.task_id))),
                 sync_log := some sync_log }
      { st with currentReport := some r2 }
    | none => st
  (st2, [{ name := "action_confirmed", source := "s8_decision_agent" }], (tasks, sync_log))

/-- The fallback judgment returned when `_should_update_report` fails to
parse the model verdict. -/
def shouldUpdateFallback : Json :=
  Json.obj [("should_update", Json.bool false), ("reason", Json.str "判断失败")]

/-- The list comprehension `[a["title"] for a in actions]` run over the
current recommendations while building the judgment prompt; it raises
before the try block when the container is not an iterable of dicts
carrying the key. -/
def titlesOf (container : Json) : Except String (List Json) :=
  match pyIter container with
  | .error e => .error e
  | .ok elems => elems.mapM (fun a => pyGetItem a "title")

/-- `_should_update_report`: read the current recommendations (the prompt
construction can raise, before the try block), then parse the model verdict
with `\x60\x60\x60json` stripping only; a parse failure is caught and
degrades to the no-update fallback. -/
def should_update_report (env : S8Env) (report : Report) : Except String Json :=
  match pyDictGet report.recommendations "actions" (Json.arr []) with
  | .error e => .error e
  | .ok container =>
    match titlesOf container with
    | .error e => .error e
    | .ok _ =>
      let content := env.shouldUpdateResp.content.getD ""
      let content :=
        if pyContains content "```json" then
          pyStrip ((pySplit ((pySplit content "```json").getD 1 "") "```").getD 0 "")
        else content
      match json_loads content with
      | .error _ => .ok shouldUpdateFallback
      | .ok j => .ok j

/-- The fallback comparison returned when `_generate_comparison` fails. -/
def comparisonFallback : Json :=
  Json.obj [("revision_summary", Json.str "基于新的会议记录，已更新建议"),
            ("revision_reasons", Json.arr [])]

/-- The list comprehension `[\x7b"title": a["title"], "reason": a["reason"]\x7d ...]`
run over a report recommendation container while building the comparison
prompt (again before the try block). -/
def titleReasonsOf (container : Json) : Except String (List Json) :=
  match pyIter container with
  | .error e => .error e
  | .ok elems => elems.mapM (fun a =>
      match pyGetItem a "title" with
      | .error e => .error e
      | .ok _ => pyGetItem a "reason")

/-- `_generate_comparison`: read old and new recommendation actions (prompt
construction can raise), then parse the model explanation; a parse failure
or a non-dict result (whose item assignment raises) is caught and degrades
to the fallback, while a dict result is stamped with the hard-coded
`old_version` v1.0, `new_version` v2.0 and the trigger sources. -/
def generate_comparison (env : S8Env) (old_report new_report : Report)
    (trigger : List Memory) : Except String Json :=
  match pyDictGet old_report.recommendations "actions" (Json.arr []) with
  | .error e => .error e
  | .ok oldContainer =>
    match titleReasonsOf oldContainer with
    | .error e => .error e
    | .ok _ =>
      match pyDictGet new_report.recommendations "actions" (Json.arr []) with
      | .error e => .error e
      | .ok newContainer =>
        match titleReasonsOf newContainer with
        | .error e => .error e
        | .ok _ =>
          let content := env.comparisonResp.content.getD ""
          let content :=
            if pyContains content "```json" then
              pyStrip ((pySplit ((pySplit content "```json").getD 1 "") "```").getD 0 "")
            else content
          match json_loads content with
          | .error _ => .ok comparisonFallback
          | .ok j =>
            match j with
            | .obj fs =>
              .ok (Json.obj (alInsert (alInsert (alInsert fs
                    "old_version" (Json.str "v1.0"))
                    "new_version" (Json.str "v2.0"))
                    "trigger_source" (Json.arr (trigger.map (fun m => Json.str m.source)))))
            | _ => .ok comparisonFallback

/-- The body of `on_memory_updated` inside the try block: skip when there is
no current report or it is confirmed, read and iterate the ingested memory
ids (either can raise), fetch the matching memory records, consult the
judgment, and on a positive verdict set the version counter to the constant
v2.0, regenerate the report, build the comparison (against
`self.current_report`, which at that point already holds the new report)
and emit `report_updated`. -/
def on_memory_updated_body (st : S8State) (env : S8Env) (eventData : Json) :
    S8State × List EmitCall × Except String Unit :=
  match st.currentReport with
  | none => (st, [], .ok ())
  | some report =>
    if report.status = "confirmed" then (st, [], .ok ())
    else
      match pyDictGet eventData "memory_ids" (Json.arr []) with
      | .error e => (st, [], .error e)
      | .ok idsJson =>
        if jsonFalsy idsJson then (st, [], .ok ())
        else
          match pyIter idsJson with
          | .error e => (st, [], .error e)
          | .ok mids =>
            match env.getAllMemories with
            | .error e => (st, [], .error e)
            | .ok allMems =>
              let newMemories := mids.filterMap
                (fun mid => allMems.find? (fun m => jsonEqStr mid m.id))
              if newMemories.isEmpty then (st, [], .ok ())
              else
                match should_update_report env report with
                | .error e => (st, [], .error e)
                | .ok verdict =>
                  match pyGetItem verdict "should_update" with
                  | .error e => (st, [], .error e)
                  | .ok flagVal =>
                    if jsonTruthy flagVal then
                      match pyGetItem verdict "reason" with
                      | .error e => (st, [], .error e)
                      | .ok _ =>
                        let st2 := { st with reportVersion := "v2.0" }
                        match generate_report st2 env with
                        | (gEmits, .error e) => (st2, gEmits, .error e)
                        | (gEmits, .ok (st3, newReport)) =>
                          match generate_comparison env
                              (st3.currentReport.getD newReport) newReport newMemories with
                          | .error e => (st3, gEmits, .error e)
                          | .ok _comparison =>
                            (st3,
                             gEmits ++ [{ name := "report_updated", source := "s8_decision_agent" }],
                             .ok ())
                    else (st, [], .ok ())

/-- `on_memory_updated`, the reactive revision controller entry point: drop
the event while `_is_processing_update` is set, otherwise set the flag, run
the body, and reset the flag in the `finally` clause on every exit path,
re-raising any exception the body propagated. -/
def on_memory_updated (st : S8State) (env : S8Env) (eventData : Json) :
    S8State × List EmitCall × Except String Unit :=
  if st.isProcessingUpdate then (st, [], .ok ())
  else
    let r := on_memory_updated_body { st with isProcessingUpdate := true } env eventData
    ({ r.1 with isProcessingUpdate := false }, r.2.1, r.2.2)

/-! ## Conflict detector (backend/app/core/meeting_assistant.py) -/

/-- The fail-open verdict `\x7b"conflict": false, "reason": ""\x7d`. -/
def conflictFalseJson : Json :=
  Json.obj [("conflict", Json.bool false), ("reason", Json.str "")]

/-- `_check_if_conflict`: judge whether two decisions conflict. An error
response, empty content, or any extraction or parse failure returns the
fail-open verdict; a successfully parsed result is returned as is. The
decision texts and dates only feed the prompt. -/
def check_if_conflict (resp : LLMResponse)
    (_new_decision _old_decision _new_date _old_date : String) : Json :=
  if resp.error.isSome then conflictFalseJson
  else
    let content := pyStrip (resp.content.getD "")
    if content == "" then conflictFalseJson
    else
      let content := extract_json_content content
      if content == "" then conflictFalseJson
      else
        match json_loads content with
        | .error _ => conflictFalseJson
        | .ok result => result

/-! ## Concrete scenarios used by counterexamples and witnesses -/

/-- A placeholder event used only as the default of list reads in closed
statements. -/
def blankEvent : Event :=
  { name := "", data := Json.null, source := "", tsec := "", tiso := "" }

/-- A placeholder report used only as the default of `Option.getD` in
closed statements. -/
def blankReport : Report :=
  { version := "", generated_at := "", summary := Json.null, risks := Json.null,
    recommendations := Json.null, status := "", tasks := none, sync_log := none }

/-- A demo collaborator environment: the three report nodes see an
unavailable completion service (degrading to placeholder outputs), the
revision judgment answers yes, and the comparison model returns
unparseable text (degrading to the fallback comparison). -/
def demoEnv : S8Env :=
  { analytics := .ok (Json.obj [])
    searchSummary := .ok []
    searchRisk := .ok []
    searchRec := .ok []
    summaryResp := { error := some "service unavailable" }
    riskResp := { error := some "service unavailable" }
    recResp := { error := some "service unavailable" }
    shouldUpdateResp :=
      { content := some "\x7b\"should_update\": true, \"reason\": \"新会议与当前建议冲突\"\x7d" }
    comparisonResp := { content := some "not json" }
    getAllMemories := .ok [{ id := "MEM_1", content := "收缩渠道A预算", source := "周会" }]
    nowIso := "2025-11-01T08:00:00" }

/-- The payload of a `memory_updated` event carrying one ingested fact id. -/
def demoEventData : Json := Json.obj [("memory_ids", Json.arr [Json.str "MEM_1"])]

/-- The agent state after the first user-initiated `generate_report` run
under `demoEnv`: current report v1.0, pending confirmation. -/
def demoState1 : S8State :=
  match (generate_report S8State.init demoEnv).2 with
  | .ok p => p.1
  | .error _ => S8State.init

/-- The result of the first reactive revision under `demoEnv`. -/
def demoRev1 : S8State × List EmitCall × Except String Unit :=
  on_memory_updated demoState1 demoEnv demoEventData

/-- The result of a second reactive revision, delivered after the first
completed. -/
def demoRev2 : S8State × List EmitCall × Except String Unit :=
  on_memory_updated demoRev1.1 demoEnv demoEventData

/-- The agent state after confirming one approved action on the v1.0 demo
report: the current report is frozen as `confirmed`. -/
def demoConfirmed : S8State :=
  (confirm_actions demoState1
    [{ title := "聚焦渠道B投放", owner := "市场部李经理", deadline := "2025-11-05" }]
    true "20251101" "090000" "2025-11-01T09:00:00").1

/-- The confirmed demo report itself. -/
def demoConfirmedReport : Report := demoConfirmed.currentReport.getD blankReport

/-- One emission step of the burst scenario: 150 events emitted in a loop
to exercise the ring buffer. -/
def burstStep (b : EventBus Nat) (i : Nat) : EventBus Nat :=
  (b.emit (fun _ => .ok ()) "tick" (Json.num (i : Int)) "load" (Nat.repr i) (Nat.repr i)).1

/-- The event created by the i-th burst emission. -/
def burstEvent (i : Nat) : Event :=
  { name := "tick", data := Json.num (i : Int), source := "load",
    tsec := Nat.repr i, tiso := Nat.repr i }

/-- The bus after a burst of n emissions starting from a fresh bus. -/
def burstBus (n : Nat) : EventBus Nat :=
  (List.range n).foldl burstStep EventBus.new

/-- Two emit calls issued within the same wall-clock second: the clock
renders the same `%Y%m%d%H%M%S` string for both, though the events differ
in topic, source and sub-second isoformat timestamp. -/
def sameSecondEmit1 : EventBus Nat × List (Except String Unit) × String :=
  (EventBus.new : EventBus Nat).emit (fun _ => .ok ()) "meeting_recorded" (Json.obj [])
    "user" "20251101093000" "2025-11-01T09:30:00.000100"

/-- The second emit of the same-second scenario, on the bus returned by the
first. -/
def sameSecondEmit2 : EventBus Nat × List (Except String Unit) × String :=
  sameSecondEmit1.1.emit (fun _ => .ok ()) "report_generated" (Json.obj [])
    "s8_decision_agent" "20251101093000" "2025-11-01T09:30:00.700500"

/-- A bus with three handlers (identified 1, 2, 3) registered for the
`memory_updated` topic. -/
def threeHandlerBus : EventBus Nat :=
  (((EventBus.new : EventBus Nat).subscribe "memory_updated" 1).subscribe
    "memory_updated" 2).subscribe "memory_updated" 3

/-- A dispatch environment in which handler 2 raises and the others finish
normally. -/
def oneFailingRun : Nat → Except String Unit :=
  fun h => if h == 2 then .error "boom" else .ok ()

/-- A bus on which handler 7 is registered twice (and 9 once) for the
`memory_updated` topic. -/
def dupHandlerBus : EventBus Nat :=
  (((EventBus.new : EventBus Nat).subscribe "memory_updated" 7).subscribe
    "memory_updated" 7).subscribe "memory_updated" 9

/-- A state in which a revision is already in flight. -/
def busyState : S8State :=
  { currentReport := none, reportVersion := "v1.0", isProcessingUpdate := true }

/-- The demo environment with a raising memory-store fetch. -/
def demoEnvMemDown : S8Env := { demoEnv with getAllMemories := .error "MemoryError" }

/-- Three recalled facts for the risk stage, most relevant first. -/
def riskMems : List Memory :=
  [{ id := "M1", content := "门店A客流下滑", source := "周会" },
   { id := "M2", content := "渠道B转化率走低", source := "月会" },
   { id := "M3", content := "预算吃紧", source := "季度会" }]

/-- A well-formed risk-stage completion in which the first risk omits
`evidence_ids` and the second already carries one. -/
def riskContent : String :=
  "\x7b\"risks\": [\x7b\"title\": \"渠道风险\"\x7d, \x7b\"title\": \"成本风险\", \"evidence_ids\": [\"E9\"]\x7d]\x7d"

/-- The demo environment specialized for the risk-backfill scenario. -/
def riskEnv : S8Env :=
  { demoEnv with searchRisk := .ok riskMems, riskResp := { content := some riskContent } }

/-- The parsed risk entries before backfilling. -/
def riskRsIn : List Json :=
  [Json.obj [("title", Json.str "渠道风险")],
   Json.obj [("title", Json.str "成本风险"), ("evidence_ids", Json.arr [Json.str "E9"])]]

/-- The fields of the parsed risk completion. -/
def riskParsedFields : List (String × Json) := [("risks", Json.arr riskRsIn)]

/-- The risk entries after backfilling: the first gains the ids of the two
most relevant recalled facts, the second is unchanged. -/
def riskRsOut : List Json :=
  [Json.obj [("title", Json.str "渠道风险"),
             ("evidence_ids", Json.arr [Json.str "M1", Json.str "M2"])],
   Json.obj [("title", Json.str "成本风险"), ("evidence_ids", Json.arr [Json.str "E9"])]]

/-- The demo environment whose risk completion is the unparseable text
`not json`. -/
def notJsonEnv : S8Env :=
  { demoEnv with riskResp := { content := some "not json" } }

/-! ## Helper lemmas -/

theorem pushCapped_length_le (cap : Nat) (h : List Event) (e : Event) (hh : h.length ≤ cap) :
    (pushCapped cap h e).length ≤ cap := by
  unfold pushCapped
  split <;> rename_i hc <;>
    simp only [List.length_drop, List.length_append, List.length_singleton] at hc ⊢ <;> omega

theorem foldl_pushCapped (cap : Nat) :
    ∀ (es h : List Event), h.length ≤ cap →
      es.foldl (pushCapped cap) h = (h ++ es).drop (h.length + es.length - cap)
  | [], h, hh => by
    simp only [List.foldl_nil, List.append_nil, List.length_nil, Nat.add_zero,
      Nat.sub_eq_zero_of_le hh, List.drop_zero]
  | e :: es, h, hh => by
    rw [List.foldl_cons]
    have hl1 : (h ++ [e]).length = h.length + 1 := by simp
    by_cases hc : cap < (h ++ [e]).length
    · have hpush : pushCapped cap h e = (h ++ [e]).drop 1 := by
        unfold pushCapped
        rw [if_pos hc]
      have hlen2 : ((h ++ [e]).drop 1).length ≤ cap := by
        rw [List.length_drop, hl1]
        omega
      rw [hpush, foldl_pushCapped cap es _ hlen2]
      have h1 : (1 : Nat) ≤ (h ++ [e]).length := by
        rw [hl1]
        omega
      rw [← List.drop_append_of_le_length h1, List.drop_drop]
      have hidx : 1 + (((h ++ [e]).drop 1).length + es.length - cap)
          = h.length + (e :: es).length - cap := by
        rw [List.length_drop, hl1, List.length_cons]
        omega
      rw [hidx, List.append_assoc, List.singleton_append]
    · have hpush : pushCapped cap h e = h ++ [e] := by
        unfold pushCapped
        rw [if_neg hc]
      have hlen2 : (h ++ [e]).length ≤ cap := Nat.le_of_not_lt hc
      rw [hpush, foldl_pushCapped cap es _ hlen2]
      have hidx : (h ++ [e]).length + es.length - cap
          = h.length + (e :: es).length - cap := by
        rw [hl1, List.length_cons]
        omega
      rw [hidx, List.append_assoc, List.singleton_append]

theorem burstStep_eventHistory (b : EventBus Nat) (i : Nat) :
    (burstStep b i).eventHistory = pushCapped b.maxHistory b.eventHistory (burstEvent i) := rfl

theorem burstStep_maxHistory (b : EventBus Nat) (i : Nat) :
    (burstStep b i).maxHistory = b.maxHistory := rfl

theorem burstBus_spec (n : Nat) :
    (burstBus n).maxHistory = 100 ∧
      (burstBus n).eventHistory = ((List.range n).map burstEvent).foldl (pushCapped 100) [] := by
  induction n with
  | zero => exact ⟨rfl, rfl⟩
  | succ k ih =>
    obtain ⟨ih1, ih2⟩ := ih
    have hstep : burstBus (k + 1) = burstStep (burstBus k) k := by
      unfold burstBus
      rw [List.range_succ, List.foldl_append, List.foldl_cons, List.foldl_nil]
    constructor
    · rw [hstep, burstStep_maxHistory, ih1]
    · rw [hstep, burstStep_eventHistory, ih1, ih2, List.range_succ, List.map_append,
        List.foldl_append, List.map_cons, List.map_nil, List.foldl_cons, List.foldl_nil]

theorem pyRemove_not_mem {H : Type} [DecidableEq H] (l : List H) (x : H) (hx : x ∉ l) :
    pyRemove l x = .error "ValueError" := by
  induction l with
  | nil => rfl
  | cons y ys ih =>
    rw [List.mem_cons, not_or] at hx
    have hne : ¬ y = x := fun h => hx.1 h.symm
    simp [pyRemove, hne, ih hx.2, Except.map]

theorem pyRemove_first {H : Type} [DecidableEq H] (l1 l2 : List H) (x : H) (hx : x ∉ l1) :
    pyRemove (l1 ++ x :: l2) x = .ok (l1 ++ l2) := by
  induction l1 with
  | nil => simp [pyRemove]
  | cons y ys ih =>
    rw [List.mem_cons, not_or] at hx
    have hne : ¬ y = x := fun h => hx.1 h.symm
    simp [pyRemove, hne, ih hx.2, Except.map]

/-! ## Claim theorems -/

/-- C3: for every emit call with N registered handlers for the topic, even
when one handler raises, all N handlers are executed (the gathered outcome
list has one entry per handler, each being exactly that handler's own run
result), and emit itself returns normally with the event id — a subscriber
exception never propagates to the emitter. -/
theorem C3_emit_isolates_handler_failures {H : Type} (bus : EventBus H)
    (run : H → Except String Unit) (name : String) (data : Json)
    (source tsec tiso : String) (bad : H) (err : String)
    (hmem : bad ∈ (busLookup bus.subscribers name).getD [])
    (hraise : run bad = .error err) :
    ((bus.emit run name data source tsec tiso).2.1.length
        = ((busLookup bus.subscribers name).getD []).length)
  ∧ (∀ i : Nat, (bus.emit run name data source tsec tiso).2.1[i]?
        = (((busLookup bus.subscribers name).getD [])[i]?).map run)
  ∧ (bus.emit run name data source tsec tiso).2.2 = "EVT_" ++ tsec := by
  refine ⟨?_, fun i => ?_, rfl⟩
  · show (((busLookup bus.subscribers name).getD []).map run).length = _
    rw [List.length_map]
  · show (((busLookup bus.subscribers name).getD []).map run)[i]? = _
    rw [List.getElem?_map]

/-- C3 witness: on a bus with three handlers for `memory_updated` where
handler 2 raises, all three outcomes are gathered and emit returns the
event id. -/
theorem C3_emit_isolates_handler_failures_witness :
    (2 ∈ (busLookup threeHandlerBus.subscribers "memory_updated").getD [])
  ∧ oneFailingRun 2 = .error "boom"
  ∧ (threeHandlerBus.emit oneFailingRun "memory_updated" (Json.obj [])
      "meeting_assistant" "20251101093000" "iso").2.1.length = 3
  ∧ (threeHandlerBus.emit oneFailingRun "memory_updated" (Json.obj [])
      "meeting_assistant" "20251101093000" "iso").2.1[1]? = some (.error "boom")
  ∧ (threeHandlerBus.emit oneFailingRun "memory_updated" (Json.obj [])
      "meeting_assistant" "20251101093000" "iso").2.2 = "EVT_20251101093000" :=
  ⟨by decide, rfl,
   ((C3_emit_isolates_handler_failures threeHandlerBus oneFailingRun "memory_updated"
      (Json.obj []) "meeting_assistant" "20251101093000" "iso" 2 "boom" (by decide)
      rfl).1).trans (by decide),
   ((C3_emit_isolates_handler_failures threeHandlerBus oneFailingRun "memory_updated"
      (Json.obj []) "meeting_assistant" "20251101093000" "iso" 2 "boom" (by decide)
      rfl).2.1 1).trans (by rfl),
   (C3_emit_isolates_handler_failures threeHandlerBus oneFailingRun "memory_updated"
      (Json.obj []) "meeting_assistant" "20251101093000" "iso" 2 "boom" (by decide)
      rfl).2.2⟩

/-- C4: the event history never exceeds 100 entries (emit preserves the
bound on a capacity-100 bus), and a burst of 150 emits from a fresh bus
leaves exactly the last 100 events, in order — oldest-first eviction. -/
theorem C4_bounded_history {H : Type} (bus : EventBus H) (run : H → Except String Unit)
    (name : String) (data : Json) (source tsec tiso : String)
    (hmax : bus.maxHistory = 100) (hlen : bus.eventHistory.length ≤ 100) :
    ((bus.emit run name data source tsec tiso).1.eventHistory.length ≤ 100)
  ∧ (burstBus 150).eventHistory = ((List.range 150).map burstEvent).drop 50
  ∧ (burstBus 150).eventHistory.length = 100 := by
  have hburst : (burstBus 150).eventHistory = ((List.range 150).map burstEvent).drop 50 := by
    rw [(burstBus_spec 150).2, foldl_pushCapped 100 _ [] (by simp)]
    simp
  refine ⟨?_, hburst, ?_⟩
  · have hh : (bus.emit run name data source tsec tiso).1.eventHistory
        = pushCapped bus.maxHistory bus.eventHistory
            { name := name, data := data, source := source, tsec := tsec, tiso := tiso } := rfl
    rw [hh, hmax]
    exact pushCapped_length_le 100 _ _ hlen
  · rw [hburst, List.length_drop, List.length_map, List.length_range]

/-- C4 witness: the bound-preservation part applied to a concrete fresh bus
with three subscribers. -/
theorem C4_bounded_history_witness :
    threeHandlerBus.maxHistory = 100
  ∧ threeHandlerBus.eventHistory.length ≤ 100
  ∧ (threeHandlerBus.emit oneFailingRun "memory_updated" (Json.obj [])
      "meeting_assistant" "t" "i").1.eventHistory.length ≤ 100 :=
  ⟨rfl, by decide,
   (C4_bounded_history threeHandlerBus oneFailingRun "memory_updated" (Json.obj [])
      "meeting_assistant" "t" "i" rfl (by decide)).1⟩

/-- C5 counterexample: two distinct emit calls (different topics and
sources) issued within the same wall-clock second create two events that
carry the same id — event identity is reused, refuting the claim that any
two emits yield distinct ids. -/
theorem C5_counterexample_same_second_ids :
    sameSecondEmit1.2.2 = sameSecondEmit2.2.2
  ∧ sameSecondEmit2.1.eventHistory.length = 2
  ∧ (sameSecondEmit2.1.eventHistory.getD 0 blankEvent).name
      ≠ (sameSecondEmit2.1.eventHistory.getD 1 blankEvent).name
  ∧ (sameSecondEmit2.1.eventHistory.getD 0 blankEvent).id
      = (sameSecondEmit2.1.eventHistory.getD 1 blankEvent).id :=
  ⟨rfl, rfl, by decide, rfl⟩

/-- C5 amended: the ids of two emit calls are distinct exactly when their
creation times differ at second granularity (the `%Y%m%d%H%M%S` rendering);
emits within the same second share an id. -/
theorem C5_amended_id_determined_by_second {H1 H2 : Type} (bus1 : EventBus H1)
    (bus2 : EventBus H2) (run1 : H1 → Except String Unit) (run2 : H2 → Except String Unit)
    (n1 n2 : String) (d1 d2 : Json) (s1 s2 tsec1 tsec2 tiso1 tiso2 : String) :
    (bus1.emit run1 n1 d1 s1 tsec1 tiso1).2.2 = (bus2.emit run2 n2 d2 s2 tsec2 tiso2).2.2
      ↔ tsec1 = tsec2 := by
  constructor
  · intro h
    have h2 : "EVT_" ++ tsec1 = "EVT_" ++ tsec2 := h
    have h3 := congrArg String.data h2
    rw [String.data_append, String.data_append] at h3
    exact String.ext (List.append_cancel_left h3)
  · intro h
    show "EVT_" ++ tsec1 = "EVT_" ++ tsec2
    rw [h]

/-- C10: unsubscribing a handler that is not registered for a topic that
does have subscribers raises ValueError (not a no-op), and unsubscribing a
doubly registered handler removes exactly the first registration, leaving
the second in place. -/
theorem C10_unsubscribe_semantics {H : Type} [DecidableEq H] (bus : EventBus H)
    (name : String) (cb : H) (l : List H)
    (hl : busLookup bus.subscribers name = some l) :
    (cb ∉ l → bus.unsubscribe name cb = .error "ValueError")
  ∧ (∀ l1 l2, l = l1 ++ cb :: l2 → cb ∉ l1 →
      bus.unsubscribe name cb
        = .ok { bus with subscribers := busSet bus.subscribers name (l1 ++ l2) }) := by
  constructor
  · intro hmem
    unfold EventBus.unsubscribe
    rw [hl]
    dsimp only
    rw [pyRemove_not_mem l cb hmem]
    rfl
  · intro l1 l2 hsplit hmem
    unfold EventBus.unsubscribe
    rw [hl, hsplit]
    dsimp only
    rw [pyRemove_first l1 l2 cb hmem]
    rfl

/-- C10 witness: on a bus where handler 7 is registered twice and 9 once
for `memory_updated`, unsubscribing the unregistered handler 8 raises
ValueError, and one unsubscribe of 7 leaves `[7, 9]`. -/
theorem C10_unsubscribe_semantics_witness :
    busLookup dupHandlerBus.subscribers "memory_updated" = some [7, 7, 9]
  ∧ dupHandlerBus.unsubscribe "memory_updated" 8 = .error "ValueError"
  ∧ dupHandlerBus.unsubscribe "memory_updated" 7
      = .ok { dupHandlerBus with
                subscribers := busSet dupHandlerBus.subscribers "memory_updated" [7, 9] } :=
  ⟨rfl,
   (C10_unsubscribe_semantics dupHandlerBus "memory_updated" 8 [7, 7, 9] rfl).1 (by decide),
   (C10_unsubscribe_semantics dupHandlerBus "memory_updated" 7 [7, 7, 9] rfl).2 [] [7, 9]
     rfl (by decide)⟩

theorem node_summary_emits (env : S8Env) :
    (node_summary env).1 = [nodeStatusEmit] ∨
      (node_summary env).1 = [nodeStatusEmit, nodeStatusEmit] := by
  unfold node_summary
  repeat' split
  all_goals dsimp only
  all_goals repeat' split
  all_goals first
    | exact Or.inl rfl
    | exact Or.inr rfl

theorem node_risk_emits (env : S8Env) (summary : Json) :
    (node_risk_detection env summary).1 = [nodeStatusEmit] ∨
      (node_risk_detection env summary).1 = [nodeStatusEmit, nodeStatusEmit] := by
  unfold node_risk_detection
  repeat' split
  all_goals dsimp only
  all_goals repeat' split
  all_goals first
    | exact Or.inl rfl
    | exact Or.inr rfl

theorem node_rec_emits (env : S8Env) (summary risks : Json) :
    (node_recommendations env summary risks).1 = [nodeStatusEmit] ∨
      (node_recommendations env summary risks).1 = [nodeStatusEmit, nodeStatusEmit] := by
  unfold node_recommendations
  repeat' split
  all_goals dsimp only
  all_goals repeat' split
  all_goals first
    | exact Or.inl rfl
    | exact Or.inr rfl

theorem node_summary_emit_names (env : S8Env) :
    ∀ c ∈ (node_summary env).1, c.name = "node_status" := by
  intro c hc
  rcases node_summary_emits env with h | h <;> rw [h] at hc <;> simp at hc <;> rw [hc] <;> rfl

theorem node_risk_emit_names (env : S8Env) (summary : Json) :
    ∀ c ∈ (node_risk_detection env summary).1, c.name = "node_status" := by
  intro c hc
  rcases node_risk_emits env summary with h | h <;> rw [h] at hc <;> simp at hc <;>
    rw [hc] <;> rfl

theorem node_rec_emit_names (env : S8Env) (summary risks : Json) :
    ∀ c ∈ (node_recommendations env summary risks).1, c.name = "node_status" := by
  intro c hc
  rcases node_rec_emits env summary risks with h | h <;> rw [h] at hc <;> simp at hc <;>
    rw [hc] <;> rfl

theorem generate_report_emits (st : S8State) (env : S8Env) :
    ∀ c ∈ (generate_report st env).1, c.name = "node_status" ∨ c.name = "report_generated" := by
  intro c hc
  unfold generate_report at hc
  rcases hs : node_summary env with ⟨e1, s1⟩
  rw [hs] at hc
  have he1 : ∀ d ∈ e1, d.name = "node_status" := by
    have h := node_summary_emit_names env
    rw [hs] at h
    exact h
  cases s1 with
  | error e =>
    dsimp only at hc
    exact Or.inl (he1 c hc)
  | ok summary =>
    dsimp only at hc
    rcases hr : node_risk_detection env summary with ⟨e2, s2⟩
    rw [hr] at hc
    have he2 : ∀ d ∈ e2, d.name = "node_status" := by
      have h := node_risk_emit_names env summary
      rw [hr] at h
      exact h
    cases s2 with
    | error e =>
      dsimp only at hc
      rw [List.mem_append] at hc
      rcases hc with hc | hc
      · exact Or.inl (he1 c hc)
      · exact Or.inl (he2 c hc)
    | ok risks =>
      dsimp only at hc
      rcases hrec : node_recommendations env summary risks with ⟨e3, s3⟩
      rw [hrec] at hc
      have he3 : ∀ d ∈ e3, d.name = "node_status" := by
        have h := node_rec_emit_names env summary risks
        rw [hrec] at h
        exact h
      cases s3 with
      | error e =>
        dsimp only at hc
        rw [List.mem_append, List.mem_append] at hc
        rcases hc with (hc | hc) | hc
        · exact Or.inl (he1 c hc)
        · exact Or.inl (he2 c hc)
        · exact Or.inl (he3 c hc)
      | ok recs =>
        dsimp only at hc
        rw [List.mem_append, List.mem_append, List.mem_append] at hc
        rcases hc with ((hc | hc) | hc) | hc
        · exact Or.inl (he1 c hc)
        · exact Or.inl (he2 c hc)
        · exact Or.inl (he3 c hc)
        · simp at hc
          rw [hc]
          exact Or.inr rfl

theorem generate_report_ok (st : S8State) (env : S8Env) (st1 : S8State) (rep : Report)
    (h : (generate_report st env).2 = .ok (st1, rep)) :
    st1 = { st with currentReport := some rep } ∧ rep.version = st.reportVersion ∧
      rep.status = "pending_confirmation" := by
  unfold generate_report at h
  rcases hs : node_summary env with ⟨e1, s1⟩
  rw [hs] at h
  cases s1 with
  | error e => simp at h
  | ok summary =>
    dsimp only at h
    rcases hr : node_risk_detection env summary with ⟨e2, s2⟩
    rw [hr] at h
    cases s2 with
    | error e => simp at h
    | ok risks =>
      dsimp only at h
      rcases hrec : node_recommendations env summary risks with ⟨e3, s3⟩
      rw [hrec] at h
      cases s3 with
      | error e => simp at h
      | ok recs =>
        dsimp only at h
        rw [Except.ok.injEq, Prod.mk.injEq] at h
        obtain ⟨ha, hb⟩ := h
        subst hb
        subst ha
        exact ⟨rfl, rfl, rfl⟩

theorem body_revision_sets_v2 (st : S8State) (env : S8Env) (ed : Json) :
    ((on_memory_updated_body st env ed).2.1.any (fun c => c.name == "report_updated") = true) →
      (on_memory_updated_body st env ed).1.currentReport.map Report.version = some "v2.0"
    ∧ (on_memory_updated_body st env ed).1.reportVersion = "v2.0" := by
  unfold on_memory_updated_body
  rcases hcr : st.currentReport with _ | report
  · intro hrev
    simp at hrev
  dsimp only
  by_cases hstat : report.status = "confirmed"
  · rw [if_pos hstat]
    intro hrev
    simp at hrev
  rw [if_neg hstat]
  rcases hg : pyDictGet ed "memory_ids" (Json.arr []) with e | idsJson
  · intro hrev
    simp at hrev
  dsimp only
  by_cases hfal : jsonFalsy idsJson = true
  · rw [if_pos hfal]
    intro hrev
    simp at hrev
  rw [if_neg hfal]
  rcases hit : pyIter idsJson with e | mids
  · intro hrev
    simp at hrev
  dsimp only
  rcases hall : env.getAllMemories with e | allMems
  · intro hrev
    simp at hrev
  dsimp only
  by_cases hne :
      (mids.filterMap (fun mid => allMems.find? (fun m => jsonEqStr mid m.id))).isEmpty = true
  · rw [if_pos hne]
    intro hrev
    simp at hrev
  rw [if_neg hne]
  rcases hsu : should_update_report env report with e | verdict
  · intro hrev
    simp at hrev
  dsimp only
  rcases hgi : pyGetItem verdict "should_update" with e | flagVal
  · intro hrev
    simp at hrev
  dsimp only
  by_cases htr : jsonTruthy flagVal = true
  case neg =>
    rw [if_neg htr]
    intro hrev
    simp at hrev
  rw [if_pos htr]
  rcases hgr : pyGetItem verdict "reason" with e | reasonVal
  · intro hrev
    simp at hrev
  dsimp only
  rcases hgen : generate_report
      { currentReport := some report, reportVersion := "v2.0",
        isProcessingUpdate := st.isProcessingUpdate } env with ⟨gEmits, gres⟩
  cases gres with
  | error e =>
    dsimp only
    intro hrev
    rw [List.any_eq_true] at hrev
    obtain ⟨c, hc, hname⟩ := hrev
    rw [beq_iff_eq] at hname
    have h := generate_report_emits
      { currentReport := some report, reportVersion := "v2.0",
        isProcessingUpdate := st.isProcessingUpdate } env c
    rw [hgen] at h
    rcases h hc with h | h <;> rw [hname] at h <;> simp at h
  | ok pr =>
    rcases pr with ⟨st3, newReport⟩
    dsimp only
    have hok : (generate_report
        { currentReport := some report, reportVersion := "v2.0",
          isProcessingUpdate := st.isProcessingUpdate } env).2
        = Except.ok (st3, newReport) := by
      rw [hgen]
    obtain ⟨h1, h2, _⟩ := generate_report_ok
      { currentReport := some report, reportVersion := "v2.0",
        isProcessingUpdate := st.isProcessingUpdate } env st3 newReport hok
    rcases hcomp : generate_comparison env (st3.currentReport.getD newReport) newReport
        (mids.filterMap (fun mid => allMems.find? (fun m => jsonEqStr mid m.id))) with e | comp
    · dsimp only
      intro hrev
      rw [List.any_eq_true] at hrev
      obtain ⟨c, hc, hname⟩ := hrev
      rw [beq_iff_eq] at hname
      have h := generate_report_emits
        { currentReport := some report, reportVersion := "v2.0",
          isProcessingUpdate := st.isProcessingUpdate } env c
      rw [hgen] at h
      rcases h hc with h | h <;> rw [hname] at h <;> simp at h
    · dsimp only
      intro _
      subst h1
      refine ⟨?_, rfl⟩
      show some newReport.version = some "v2.0"
      simp [h2]

/-- C1 counterexample: under the demo environment a first reactive revision
moves the report from v1.0 to v2.0, but a second revision — which does run
and publishes `report_updated` — produces a report whose version equals the
old report's version (v2.0 is reused), so versions are not strictly
increasing across every revision and a version value is reused. -/
theorem C1_counterexample_version_reused :
    demoState1.currentReport.map Report.version = some "v1.0"
  ∧ (demoRev1.2.1).any (fun c => c.name == "report_updated") = true
  ∧ demoRev1.1.currentReport.map Report.version = some "v2.0"
  ∧ (demoRev2.2.1).any (fun c => c.name == "report_updated") = true
  ∧ demoRev2.1.currentReport.map Report.version = some "v2.0"
  ∧ demoRev2.1.currentReport.map Report.version = demoRev1.1.currentReport.map Report.version :=
  ⟨by decide, by decide, by decide, by decide, by decide, by decide⟩

/-- C1 amended: every reactive revision that actually publishes a
`report_updated` event stamps the regenerated report (and the pipeline
version counter) with the constant version v2.0; consequently the first
revision of the initial v1.0 report strictly increases the version, but any
subsequent revision reuses v2.0 instead of increasing it further. -/
theorem C1_amended_revision_version_is_v2 (st : S8State) (env : S8Env) (eventData : Json)
    (hflag : st.isProcessingUpdate = false)
    (hrev : ((on_memory_updated st env eventData).2.1).any
        (fun c => c.name == "report_updated") = true) :
    (on_memory_updated st env eventData).1.currentReport.map Report.version = some "v2.0"
  ∧ (on_memory_updated st env eventData).1.reportVersion = "v2.0"
  ∧ (∀ r, st.currentReport = some r → r.version = "v1.0" →
      (on_memory_updated st env eventData).1.currentReport.map Report.version
        ≠ some r.version) := by
  unfold on_memory_updated at hrev ⊢
  rw [if_neg (by rw [hflag]; exact Bool.false_ne_true)] at hrev ⊢
  dsimp only at hrev ⊢
  obtain ⟨h1, h2⟩ := body_revision_sets_v2
    { st with isProcessingUpdate := true } env eventData hrev
  refine ⟨h1, h2, ?_⟩
  intro r _ hv
  rw [h1, hv]
  simp

/-- C1 witness: the amended theorem applied to the concrete demo scenario
in which a revision fires. -/
theorem C1_amended_revision_version_is_v2_witness :
    demoState1.isProcessingUpdate = false
  ∧ ((on_memory_updated demoState1 demoEnv demoEventData).2.1).any
      (fun c => c.name == "report_updated") = true
  ∧ (on_memory_updated demoState1 demoEnv demoEventData).1.currentReport.map Report.version
      = some "v2.0" :=
  ⟨rfl, by decide,
   (C1_amended_revision_version_is_v2 demoState1 demoEnv demoEventData rfl (by decide)).1⟩

/-- C2: once the current report's status is confirmed it is terminal — the
revision handler returns with the state unchanged, emits nothing and raises
nothing on every subsequently delivered ingestion event; only a
`generate_report` run installs a new current report (its successful result
always replaces the singleton current report with the fresh report). -/
theorem C2_confirmed_report_terminal (st : S8State) (env : S8Env) (eventData : Json)
    (r : Report) (hr : st.currentReport = some r) (hconf : r.status = "confirmed") :
    on_memory_updated st env eventData = (st, [], .ok ())
  ∧ (∀ (st0 : S8State) (env0 : S8Env) (st1 : S8State) (rep : Report),
      (generate_report st0 env0).2 = .ok (st1, rep) → st1.currentReport = some rep) := by
  constructor
  · obtain ⟨cr, rv, flag⟩ := st
    dsimp only at hr
    subst hr
    unfold on_memory_updated
    cases flag with
    | true => rw [if_pos rfl]
    | false =>
      rw [if_neg Bool.false_ne_true]
      unfold on_memory_updated_body
      dsimp only
      rw [if_pos hconf]
  · intro st0 env0 st1 rep h
    rw [(generate_report_ok st0 env0 st1 rep h).1]

/-- C2 witness: the terminality part applied to the concrete confirmed demo
state, and a concrete check that the handler leaves it untouched. -/
theorem C2_confirmed_report_terminal_witness :
    demoConfirmed.currentReport = some demoConfirmedReport
  ∧ demoConfirmedReport.status = "confirmed"
  ∧ on_memory_updated demoConfirmed demoEnv demoEventData = (demoConfirmed, [], .ok ()) :=
  ⟨rfl, by decide,
   (C2_confirmed_report_terminal demoConfirmed demoEnv demoEventData demoConfirmedReport
      rfl (by decide)).1⟩

/-- C6: while the re-entrancy flag is set, every delivered ingestion event
is dropped — the handler returns immediately with the state unchanged, no
emissions and no error, so at most one revision cycle runs; and whenever
the handler starts with the flag clear, the flag is back to clear on every
exit path, including the paths on which fetching facts, the relevance
judgment, regeneration, comparison or event publication raises (the
`finally` clause resets it before the exception propagates). -/
theorem C6_reentrancy_guard (st : S8State) (env : S8Env) (eventData : Json) :
    (st.isProcessingUpdate = true → on_memory_updated st env eventData = (st, [], .ok ()))
  ∧ (st.isProcessingUpdate = false →
      (on_memory_updated st env eventData).1.isProcessingUpdate = false) := by
  constructor
  · intro h
    unfold on_memory_updated
    rw [if_pos h]
  · intro h
    unfold on_memory_updated
    rw [if_neg (by rw [h]; exact Bool.false_ne_true)]

/-- C6 witness: a busy state drops the event unchanged, and a run in which
the memory-store fetch raises still ends with the flag clear while the
exception propagates. -/
theorem C6_reentrancy_guard_witness :
    busyState.isProcessingUpdate = true
  ∧ on_memory_updated busyState demoEnv demoEventData = (busyState, [], .ok ())
  ∧ demoState1.isProcessingUpdate = false
  ∧ (on_memory_updated demoState1 demoEnvMemDown demoEventData).1.isProcessingUpdate = false
  ∧ (on_memory_updated demoState1 demoEnvMemDown demoEventData).2.2 = .error "MemoryError" :=
  ⟨rfl, (C6_reentrancy_guard busyState demoEnv demoEventData).1 rfl, rfl,
   (C6_reentrancy_guard demoState1 demoEnvMemDown demoEventData).2 rfl, rfl⟩

/-- C7: when the risk-stage completion parses successfully to an object
whose `risks` entries all process, the stage returns those entries with the
backfill applied in place: an entry whose `evidence_ids` is absent or empty
(Python-falsy) receives exactly the ids of the first two (most relevant)
recalled facts, and an entry that already carries evidence ids is left
unchanged. -/
theorem C7_risk_evidence_backfill (env : S8Env) (summary : Json) (mems : List Memory)
    (c : String) (fs : List (String × Json)) (rs rs2 : List Json)
    (hresp : env.riskResp = { error := none, content := some c })
    (hsearch : env.searchRisk = .ok mems)
    (hne : ¬ pyStrip c = "")
    (hxe : ¬ extract_json_content (pyStrip c) = "")
    (hparse : json_loads (extract_json_content (pyStrip c)) = .ok (Json.obj fs))
    (hrisks : alLookup fs "risks" = some (Json.arr rs))
    (hback : rs.mapM (backfillEntry mems) = .ok rs2) :
    node_risk_detection env summary
      = ([nodeStatusEmit, nodeStatusEmit], .ok (Json.obj (alInsert fs "risks" (Json.arr rs2))))
  ∧ (∀ gs, jsonFalsy ((alLookup gs "evidence_ids").getD Json.null) = true →
      backfillEntry mems (Json.obj gs)
        = .ok (Json.obj (alInsert gs "evidence_ids"
            (Json.arr ((mems.take 2).map (fun m => Json.str m.id))))))
  ∧ (∀ gs v, alLookup gs "evidence_ids" = some v → jsonTruthy v = true →
      backfillEntry mems (Json.obj gs) = .ok (Json.obj gs)) := by
  refine ⟨?_, ?_, ?_⟩
  · simp only [node_risk_detection, hsearch, hresp, hne, hxe, hparse, hrisks, backfillAll,
      Except.map, pyLen]
    have hback2 : List.mapM.loop (backfillEntry mems) rs [] = Except.ok rs2 := hback
    simp [hne, hxe, hparse, hrisks, hback2]
  · intro gs h
    simp [backfillEntry, h]
  · intro gs v hv htr
    have hf : jsonFalsy v = false := by
      revert htr
      unfold jsonTruthy
      cases jsonFalsy v <;> simp
    simp [backfillEntry, hv, hf]

/-- C7 witness: a concrete parsed completion with one entry missing
`evidence_ids` and one already carrying them; the first is backfilled with
the ids of the two most relevant recalled facts, the second is unchanged. -/
theorem C7_risk_evidence_backfill_witness :
    riskEnv.riskResp = { error := none, content := some riskContent }
  ∧ json_loads (extract_json_content (pyStrip riskContent)) = .ok (Json.obj riskParsedFields)
  ∧ riskRsIn.mapM (backfillEntry riskMems) = .ok riskRsOut
  ∧ node_risk_detection riskEnv Json.null
      = ([nodeStatusEmit, nodeStatusEmit],
         .ok (Json.obj (alInsert riskParsedFields "risks" (Json.arr riskRsOut)))) :=
  ⟨rfl, rfl, rfl,
   (C7_risk_evidence_backfill riskEnv Json.null riskMems riskContent riskParsedFields
      riskRsIn riskRsOut rfl rfl (by decide) (by decide) rfl rfl rfl).1⟩

/-- C8: the risk stage degrades to `\x7b"risks": []\x7d` and returns normally
(never raising to its caller) on every malformed-completion case: an error
response, empty or whitespace-only content, content whose extraction is
empty, and content whose extracted text fails to parse as JSON. -/
theorem C8_risk_malformed_degrades (env : S8Env) (summary : Json) (mems : List Memory)
    (hsearch : env.searchRisk = .ok mems) :
    (env.riskResp.error.isSome = true →
      node_risk_detection env summary = ([nodeStatusEmit], .ok risksEmptyJson))
  ∧ (env.riskResp.error = none → pyStrip (env.riskResp.content.getD "") = "" →
      node_risk_detection env summary = ([nodeStatusEmit], .ok risksEmptyJson))
  ∧ (env.riskResp.error = none →
      ¬ pyStrip (env.riskResp.content.getD "") = "" →
      extract_json_content (pyStrip (env.riskResp.content.getD "")) = "" →
      node_risk_detection env summary = ([nodeStatusEmit], .ok risksEmptyJson))
  ∧ (∀ err, env.riskResp.error = none →
      ¬ pyStrip (env.riskResp.content.getD "") = "" →
      ¬ extract_json_content (pyStrip (env.riskResp.content.getD "")) = "" →
      json_loads (extract_json_content (pyStrip (env.riskResp.content.getD ""))) = .error err →
      node_risk_detection env summary = ([nodeStatusEmit], .ok risksEmptyJson)) := by
  refine ⟨?_, ?_, ?_, ?_⟩
  · intro he
    simp [node_risk_detection, hsearch, he]
  · intro he hc
    simp [node_risk_detection, hsearch, he, hc]
  · intro he hc hx
    simp [node_risk_detection, hsearch, he, hc, hx]
  · intro err he hc hx hp
    simp [node_risk_detection, hsearch, he, hc, hx, hp]

/-- C8 witness: the non-JSON content `not json` and an error response both
yield the degraded `\x7b"risks": []\x7d` without an exception. -/
theorem C8_risk_malformed_degrades_witness :
    notJsonEnv.riskResp.error = none
  ∧ json_loads (extract_json_content (pyStrip (notJsonEnv.riskResp.content.getD "")))
      = .error "JSONDecodeError"
  ∧ node_risk_detection notJsonEnv Json.null = ([nodeStatusEmit], .ok risksEmptyJson)
  ∧ demoEnv.riskResp.error.isSome = true
  ∧ node_risk_detection demoEnv Json.null = ([nodeStatusEmit], .ok risksEmptyJson) :=
  ⟨rfl, rfl,
   (C8_risk_malformed_degrades notJsonEnv Json.null [] rfl).2.2.2 "JSONDecodeError" rfl
     (by decide) (by decide) rfl,
   rfl,
   (C8_risk_malformed_degrades demoEnv Json.null [] rfl).1 rfl⟩

/-- C9: the conflict detector fails open — an error response, empty
content, empty extraction, or unparseable output all return
`\x7b"conflict": false, "reason": ""\x7d`, so ingestion is never blocked by
an unavailable judge. -/
theorem C9_conflict_detector_fails_open (resp : LLMResponse) (nd od ndate odate : String) :
    (resp.error.isSome = true → check_if_conflict resp nd od ndate odate = conflictFalseJson)
  ∧ (resp.error = none → pyStrip (resp.content.getD "") = "" →
      check_if_conflict resp nd od ndate odate = conflictFalseJson)
  ∧ (resp.error = none → ¬ pyStrip (resp.content.getD "") = "" →
      extract_json_content (pyStrip (resp.content.getD "")) = "" →
      check_if_conflict resp nd od ndate odate = conflictFalseJson)
  ∧ (∀ err, resp.error = none → ¬ pyStrip (resp.content.getD "") = "" →
      ¬ extract_json_content (pyStrip (resp.content.getD "")) = "" →
      json_loads (extract_json_content (pyStrip (resp.content.getD ""))) = .error err →
      check_if_conflict resp nd od ndate odate = conflictFalseJson) := by
  refine ⟨?_, ?_, ?_, ?_⟩
  · intro he
    simp [check_if_conflict, he]
  · intro he hc
    simp [check_if_conflict, he, hc]
  · intro he hc hx
    simp [check_if_conflict, he, hc, hx]
  · intro err he hc hx hp
    simp [check_if_conflict, he, hc, hx, hp]

/-- C9 witness: an unavailable judge, unparseable output, and
whitespace-only content each produce the fail-open verdict on a concrete
scripted decision pair. -/
theorem C9_conflict_detector_fails_open_witness :
    check_if_conflict { error := some "HTTP 503" } "重点投入渠道A" "收缩渠道A预算" "10-01" "11-01"
      = conflictFalseJson
  ∧ check_if_conflict { content := some "not json" } "重点投入渠道A" "收缩渠道A预算" "10-01" "11-01"
      = conflictFalseJson
  ∧ check_if_conflict { content := some "   " } "重点投入渠道A" "收缩渠道A预算" "10-01" "11-01"
      = conflictFalseJson :=
  ⟨(C9_conflict_detector_fails_open { error := some "HTTP 503" }
      "重点投入渠道A" "收缩渠道A预算" "10-01" "11-01").1 rfl,
   (C9_conflict_detector_fails_open { content := some "not json" }
      "重点投入渠道A" "收缩渠道A预算" "10-01" "11-01").2.2.2 "JSONDecodeError" rfl
      (by decide) (by decide) rfl,
   (C9_conflict_detector_fails_open { content := some "   " }
      "重点投入渠道A" "收缩渠道A预算" "10-01" "11-01").2.1 rfl (by decide)⟩

/-- C5 witness: the amended characterization applied to the concrete
same-second emits. -/
theorem C5_amended_id_determined_by_second_witness :
    sameSecondEmit1.2.2 = sameSecondEmit2.2.2 :=
  (C5_amended_id_determined_by_second (EventBus.new : EventBus Nat) sameSecondEmit1.1
    (fun _ => .ok ()) (fun _ => .ok ()) "meeting_recorded" "report_generated"
    (Json.obj []) (Json.obj []) "user" "s8_decision_agent" "20251101093000" "20251101093000"
    "2025-11-01T09:30:00.000100" "2025-11-01T09:30:00.700500").mpr rfl
